import Mathlib

/-!
# Verification of the bank-platform ledger/transfer subsystem

This file gives a shallow embedding of the two independent implementations of
the funds-transfer ledger found in the repository:

* the Django variant (`django-banking-app/accounts/views.py`,
  `serializers.py`, `models.py`), embedded in namespace `Django`;
* the Flask + SQLAlchemy variant (`src/api/banking_routes.py`,
  `src/database/service.py`, `src/database/models.py`), embedded in
  namespace `Flask`.

Modelling conventions:

* Monetary amounts are integers (`ℤ`), i.e. fixed-point values counted in
  the smallest currency unit.  The Django variant stores
  `DecimalField(decimal_places=2)` values and the Flask variant Python
  floats; the operations only add, subtract and compare amounts — they
  never divide or round — so exact integer arithmetic is a faithful common
  abstraction, and the concrete scenarios below use whole amounts (`100`
  stands for 100.00).
* A database table is a `List` of rows; a row's primary key is a `Nat`
  (the Django integer `pk`, resp. a stand-in for the Flask uuid string).
  `UPDATE ... WHERE pk = x` is a `List.map` that rewrites the matching rows.
* An ORM object fetched from the database is a snapshot value; `save()`
  writes the snapshot's fields back to the row.  This reproduces the stale
  read-modify-write behaviour of the source when the same row is fetched
  twice (e.g. a transfer whose sender and receiver coincide).
* Each operation returns `(state, Option String)`: the observable post-state
  and `none` on success or the source's error message on failure.  Validation
  failures happen before any mutation, so they return the input state.
* Django's `with transaction.atomic():` block commits all of its writes or,
  when the body raises, rolls all of them back; the Flask
  `DatabaseService.session_scope` commits after every single service call.
  The `FI` (fault-injection) variants of transfer below make an injected
  infrastructure exception at a given step observable under exactly these
  two commit disciplines.
-/

namespace Django

/-- `accounts.models.Account` (fields used by the embedded operations).
`user`, `account_number`, `account_type` and the timestamps play no role in
the transfer/deposit logic and are omitted. -/
structure Account where
  pk : Nat
  name : String
  balance : ℤ
  status : String
  is_active : Bool
  deriving DecidableEq

/-- `accounts.models.Transaction` (fields set by the embedded operations). -/
structure Transaction where
  account : Nat
  transaction_type : String
  amount : ℤ
  balance_after : ℤ
  status : String
  description : String
  related_account : Option Nat
  deriving DecidableEq

/-- `accounts.models.Transfer`.  `completed_at` is an `Option Nat` clock
value; `none` models SQL `NULL`. -/
structure Transfer where
  sender : Nat
  receiver : Nat
  amount : ℤ
  description : String
  status : String
  completed_at : Option Nat
  deriving DecidableEq

/-- The three tables touched by the Django account endpoints. -/
structure State where
  accounts : List Account
  transfers : List Transfer
  transactions : List Transaction
  deriving DecidableEq

/-- First row of an account table with the given primary key. -/
def findAccountIn (l : List Account) (pk : Nat) : Option Account :=
  l.find? (fun a => a.pk == pk)

/-- `Account.objects.get(pk=...)` / `get_object`: first row with the given
primary key. -/
def findAccount (s : State) (pk : Nat) : Option Account :=
  findAccountIn s.accounts pk

/-- `UPDATE` of the rows whose key is the object's key. -/
def saveList (l : List Account) (obj : Account) : List Account :=
  l.map (fun a => if a.pk == obj.pk then obj else a)

/-- `obj.save()`: write the in-memory object's fields to the row with its
primary key. -/
def saveAccount (s : State) (obj : Account) : State :=
  { s with accounts := saveList s.accounts obj }

/-- `DepositSerializer.deposit_method` choices. -/
def depositMethods : List String := ["bank_transfer", "check", "cash", "wire"]

/-- `accounts.serializers.TransferCreateSerializer` validation:
field validators check that the receiver exists and that the amount is
positive; the object-level `validate` compares the receiver id with
`self.context.get('sender_account')` and only rejects a self-transfer when
that context key is present.  (`AccountViewSet.transfer` constructs the
serializer with `context={'request': request}` only, i.e. passes `none`.) -/
def TransferCreateSerializer_validate (s : State) (sender_account : Option Account)
    (receiver_account_id : Nat) (amount : ℤ) : Option String :=
  if (findAccount s receiver_account_id).isNone then
    some "Receiver account does not exist"
  else if amount ≤ 0 then
    some "Amount must be greater than zero"
  else
    match sender_account with
    | some acc =>
      if receiver_account_id == acc.pk then some "Cannot transfer to the same account"
      else none
    | none => none

/-- `AccountViewSet.transfer` (views.py lines 62–136).  The sender is the
viewset object (`self.get_object()`), the receiver is fetched fresh by the
serializer's `validated_data`; both balances are then updated from those
snapshots inside one `transaction.atomic()` block, a `Transfer` row is
created with status `'completed'` and `completed_at` stamped, and two
`Transaction` rows are appended. -/
def transfer (s : State) (sender_pk receiver_account_id : Nat) (amount : ℤ)
    (description : String) (now : Nat) : State × Option String :=
  match findAccount s sender_pk with
  | none => (s, some "Not found")
  | some sender_account =>
    match TransferCreateSerializer_validate s none receiver_account_id amount with
    | some e => (s, some e)
    | none =>
      match findAccount s receiver_account_id with
      | none => (s, some "Receiver account does not exist")
      | some receiver_account =>
        let sender' := { sender_account with balance := sender_account.balance - amount }
        let s1 := saveAccount s sender'
        let receiver' := { receiver_account with balance := receiver_account.balance + amount }
        let s2 := saveAccount s1 receiver'
        let tr : Transfer :=
          { sender := sender_pk, receiver := receiver_account_id, amount := amount,
            description := description, status := "completed", completed_at := some now }
        let s3 := { s2 with transfers := s2.transfers ++ [tr] }
        let tx_out : Transaction :=
          { account := sender_pk, transaction_type := "transfer", status := "completed",
            amount := -amount, description := "Transfer to " ++ receiver_account.name,
            related_account := some receiver_account_id, balance_after := sender'.balance }
        let tx_in : Transaction :=
          { account := receiver_account_id, transaction_type := "transfer", status := "completed",
            amount := amount, description := "Transfer from " ++ sender_account.name,
            related_account := some sender_pk, balance_after := receiver'.balance }
        ({ s3 with transactions := s3.transactions ++ [tx_out, tx_in] }, none)

/-- `AccountViewSet.transfer` executed while an infrastructure exception is
raised at step `k` of the `transaction.atomic()` body (`failAt = some k`).
Django rolls the whole block back and the `except` handler returns the
generic `'Transfer failed'` error, so any in-block failure yields the
unchanged input state.  `failAt = none` is the normal execution. -/
def transferFI (failAt : Option Nat) (s : State) (sender_pk receiver_account_id : Nat)
    (amount : ℤ) (description : String) (now : Nat) : State × Option String :=
  match transfer s sender_pk receiver_account_id amount description now with
  | (s', none) =>
    match failAt with
    | some _ => (s, some "Transfer failed")
    | none => (s', none)
  | r => r

/-- `AccountViewSet.deposit` (views.py lines 138–182): validates the amount
and method via `DepositSerializer`, then adds to the balance and appends one
completed `deposit` Transaction inside `transaction.atomic()`.  No check of
`status`/`is_active` is performed. -/
def deposit (s : State) (account_pk : Nat) (amount : ℤ)
    (deposit_method description : String) : State × Option String :=
  match findAccount s account_pk with
  | none => (s, some "Not found")
  | some account =>
    if amount ≤ 0 then (s, some "Amount must be greater than zero")
    else if !(depositMethods.contains deposit_method) then
      (s, some "Invalid deposit method")
    else
      let account' := { account with balance := account.balance + amount }
      let s1 := saveAccount s account'
      let tx : Transaction :=
        { account := account_pk, transaction_type := "deposit", status := "completed",
          amount := amount,
          description := "Deposit via " ++ deposit_method ++ ": " ++ description,
          related_account := none, balance_after := account'.balance }
      ({ s1 with transactions := s1.transactions ++ [tx] }, none)

end Django

namespace Django

theorem findAccountIn_pk {l : List Account} {q : Nat} {x : Account}
    (h : findAccountIn l q = some x) : x.pk = q := by
  have h' : l.find? (fun a => a.pk == q) = some x := h
  have hp := List.find?_some h'
  exact eq_of_beq hp

theorem findAccountIn_mem {l : List Account} {q : Nat} {x : Account}
    (h : findAccountIn l q = some x) : x ∈ l := by
  have h' : l.find? (fun a => a.pk == q) = some x := h
  exact List.mem_of_find?_eq_some h'

theorem findAccount_pk {s : State} {q : Nat} {x : Account}
    (h : findAccount s q = some x) : x.pk = q :=
  findAccountIn_pk h

theorem findAccount_mem {s : State} {q : Nat} {x : Account}
    (h : findAccount s q = some x) : x ∈ s.accounts :=
  findAccountIn_mem h

/-- Looking an account up after a `save()` finds the same row, rewritten to
the saved object when the keys match. -/
theorem findAccountIn_saveList (l : List Account) (obj : Account) (q : Nat) :
    findAccountIn (saveList l obj) q
      = (findAccountIn l q).map (fun a => if a.pk == obj.pk then obj else a) := by
  have hp : ((fun a : Account => a.pk == q) ∘ fun a => if a.pk == obj.pk then obj else a)
      = fun a : Account => a.pk == q := by
    funext a
    show ((if a.pk == obj.pk then obj else a).pk == q) = (a.pk == q)
    cases h : (a.pk == obj.pk) with
    | true =>
      have ha : a.pk = obj.pk := eq_of_beq h
      simp [h, ha]
    | false => simp
  show (l.map _).find? _ = _
  rw [List.find?_map, hp]
  rfl

theorem findAccountIn_save_self {l : List Account} {q : Nat} {x : Account} {obj : Account}
    (h : findAccountIn l q = some x) (hpk : obj.pk = q) :
    findAccountIn (saveList l obj) q = some obj := by
  rw [findAccountIn_saveList, h]
  have hx : x.pk = q := findAccountIn_pk h
  simp [Option.map, hx, hpk]

theorem findAccountIn_save_ne (l : List Account) (obj : Account) (q : Nat)
    (hpk : obj.pk ≠ q) :
    findAccountIn (saveList l obj) q = findAccountIn l q := by
  rw [findAccountIn_saveList]
  cases hf : findAccountIn l q with
  | none => rfl
  | some x =>
    have hx : x.pk = q := findAccountIn_pk hf
    have hb : (x.pk == obj.pk) = false := by
      rw [hx]
      simp
      exact fun hc => hpk hc.symm
    simp [Option.map, hb]

/-- Characterization of a successful Django transfer between two distinct
existing accounts: the response, the two mutated balances, the untouched
rows, and the exact rows appended to the `Transfer` and `Transaction`
tables. -/
theorem transfer_success (s : State) (A B : Nat) (a b : Account) (amount : ℤ)
    (d : String) (now : Nat) (hA : findAccount s A = some a)
    (hB : findAccount s B = some b) (hAB : A ≠ B) (hamt : 0 < amount) :
    (transfer s A B amount d now).2 = none ∧
    findAccount (transfer s A B amount d now).1 A
      = some { a with balance := a.balance - amount } ∧
    findAccount (transfer s A B amount d now).1 B
      = some { b with balance := b.balance + amount } ∧
    (∀ q, q ≠ A → q ≠ B →
      findAccount (transfer s A B amount d now).1 q = findAccount s q) ∧
    (transfer s A B amount d now).1.transfers = s.transfers ++
      [{ sender := A, receiver := B, amount := amount, description := d,
         status := "completed", completed_at := some now }] ∧
    (transfer s A B amount d now).1.transactions = s.transactions ++
      [{ account := A, transaction_type := "transfer", status := "completed",
         amount := -amount, description := "Transfer to " ++ b.name,
         related_account := some B, balance_after := a.balance - amount },
       { account := B, transaction_type := "transfer", status := "completed",
         amount := amount, description := "Transfer from " ++ a.name,
         related_account := some A, balance_after := b.balance + amount }] := by
  have haA : a.pk = A := findAccount_pk hA
  have hbB : b.pk = B := findAccount_pk hB
  have hA' : findAccountIn s.accounts A = some a := hA
  have hB' : findAccountIn s.accounts B = some b := hB
  have hnle : ¬ amount ≤ 0 := not_le.mpr hamt
  have hval : TransferCreateSerializer_validate s none B amount = none := by
    simp [TransferCreateSerializer_validate, hB, hnle]
  simp only [transfer, hA, hB, hval]
  refine ⟨by trivial, ?_, ?_, ?_, by simp [saveAccount], by simp [saveAccount]⟩
  · show findAccountIn (saveList (saveList s.accounts _) _) A = _
    rw [findAccountIn_save_ne _ _ _
        (show ({ b with balance := b.balance + amount } : Account).pk ≠ A by
          show b.pk ≠ A
          rw [hbB]; exact fun hc => hAB hc.symm)]
    exact findAccountIn_save_self hA'
      (show ({ a with balance := a.balance - amount } : Account).pk = A from haA)
  · show findAccountIn (saveList (saveList s.accounts _) _) B = _
    have hmid : findAccountIn
        (saveList s.accounts { a with balance := a.balance - amount }) B = some b := by
      rw [findAccountIn_save_ne _ _ B
          (show ({ a with balance := a.balance - amount } : Account).pk ≠ B by
            show a.pk ≠ B
            rw [haA]; exact hAB)]
      exact hB'
    exact findAccountIn_save_self hmid
      (show ({ b with balance := b.balance + amount } : Account).pk = B from hbB)
  · intro q hqA hqB
    show findAccountIn (saveList (saveList s.accounts _) _) q = findAccount s q
    rw [findAccountIn_save_ne _ _ q
        (show ({ b with balance := b.balance + amount } : Account).pk ≠ q by
          show b.pk ≠ q
          rw [hbB]; exact fun hc => hqB hc.symm),
      findAccountIn_save_ne _ _ q
        (show ({ a with balance := a.balance - amount } : Account).pk ≠ q by
          show a.pk ≠ q
          rw [haA]; exact fun hc => hqA hc.symm)]
    rfl

/-- Characterization of a successful Django deposit on any existing account
(whatever its `status`): the balance grows by `amount`, other rows are
untouched, and one completed `deposit` Transaction is appended. -/
theorem deposit_success (s : State) (pk : Nat) (acc : Account) (amount : ℤ)
    (m d : String) (hacc : findAccount s pk = some acc) (hamt : 0 < amount)
    (hm : depositMethods.contains m = true) :
    (deposit s pk amount m d).2 = none ∧
    findAccount (deposit s pk amount m d).1 pk
      = some { acc with balance := acc.balance + amount } ∧
    (∀ q, q ≠ pk → findAccount (deposit s pk amount m d).1 q = findAccount s q) ∧
    (deposit s pk amount m d).1.transfers = s.transfers ∧
    (deposit s pk amount m d).1.transactions = s.transactions ++
      [{ account := pk, transaction_type := "deposit", status := "completed",
         amount := amount, description := "Deposit via " ++ m ++ ": " ++ d,
         related_account := none, balance_after := acc.balance + amount }] := by
  have hpk : acc.pk = pk := findAccount_pk hacc
  have hacc' : findAccountIn s.accounts pk = some acc := hacc
  have hnle : ¬ amount ≤ 0 := not_le.mpr hamt
  simp only [deposit, hacc, hnle, hm]
  refine ⟨by trivial, ?_, ?_, by simp [saveAccount], by simp [saveAccount]⟩
  · show findAccountIn (saveList s.accounts _) pk = _
    exact findAccountIn_save_self hacc'
      (show ({ acc with balance := acc.balance + amount } : Account).pk = pk from hpk)
  · intro q hq
    show findAccountIn (saveList s.accounts _) q = findAccount s q
    rw [findAccountIn_save_ne _ _ q
        (show ({ acc with balance := acc.balance + amount } : Account).pk ≠ q by
          show acc.pk ≠ q
          rw [hpk]; exact fun hc => hq hc.symm)]
    rfl

end Django

namespace Flask

/-- `src.database.models.Account` (fields used by the banking routes).
`id` stands for the uuid primary key, `owner_id` for the owning user's id. -/
structure Account where
  id : Nat
  account_number : String
  owner_id : Nat
  balance : ℤ
  available_balance : ℤ
  is_active : Bool
  deriving DecidableEq

/-- `src.database.models.Transaction` (fields set by
`DatabaseService.create_transaction`).  `id` stands for the uuid primary
key, which the routes pass to `create_ledger_entry` as the correlation. -/
structure Transaction where
  id : Nat
  from_account_id : Option Nat
  to_account_id : Option Nat
  amount : ℤ
  transaction_type : String
  status : String
  description : String
  deriving DecidableEq

/-- `src.database.models.Ledger`. -/
structure Ledger where
  account_id : Nat
  transaction_id : Option Nat
  debit : ℤ
  credit : ℤ
  balance_after : ℤ
  entry_type : String
  description : String
  deriving DecidableEq

/-- The tables touched by the banking routes, plus a counter standing in for
uuid generation of `Transaction.id`. -/
structure State where
  accounts : List Account
  transactions : List Transaction
  ledgers : List Ledger
  next_id : Nat
  deriving DecidableEq

/-- First row of an account table with the given id. -/
def findById (l : List Account) (account_id : Nat) : Option Account :=
  l.find? (fun a => a.id == account_id)

/-- `DatabaseService.get_account_by_id`. -/
def get_account_by_id (s : State) (account_id : Nat) : Option Account :=
  findById s.accounts account_id

/-- `DatabaseService.get_account_by_number`. -/
def get_account_by_number (s : State) (account_number : String) : Option Account :=
  s.accounts.find? (fun a => a.account_number == account_number)

/-- `UPDATE` of the rows with the given id: set both `balance` and
`available_balance` to `new_balance`. -/
def updateList (l : List Account) (account_id : Nat) (new_balance : ℤ) : List Account :=
  l.map (fun a =>
    if a.id == account_id then
      { a with balance := new_balance, available_balance := new_balance }
    else a)

/-- `DatabaseService.update_account_balance`: one committed session that sets
both `balance` and `available_balance` of the matching row to `new_balance`. -/
def update_account_balance (s : State) (account_id : Nat) (new_balance : ℤ) : State :=
  { s with accounts := updateList s.accounts account_id new_balance }

/-- `DatabaseService.create_transaction`: one committed session appending a
row; returns the new row's id (the source generates a uuid). -/
def create_transaction (s : State) (transaction_type : String) (amount : ℤ)
    (from_account_id to_account_id : Option Nat) (description : String)
    (status : String) : State × Nat :=
  let tx : Transaction :=
    { id := s.next_id, from_account_id := from_account_id,
      to_account_id := to_account_id, amount := amount,
      transaction_type := transaction_type, status := status,
      description := description }
  ({ s with transactions := s.transactions ++ [tx], next_id := s.next_id + 1 }, s.next_id)

/-- `DatabaseService.create_ledger_entry`: one committed session appending a
ledger row. -/
def create_ledger_entry (s : State) (account_id : Nat) (debit credit : ℤ)
    (balance_after : ℤ) (entry_type description : String)
    (transaction_id : Option Nat) : State :=
  { s with ledgers := s.ledgers ++
      [{ account_id := account_id, transaction_id := transaction_id,
         debit := debit, credit := credit, balance_after := balance_after,
         entry_type := entry_type, description := description }] }

/-- `banking_routes.deposit` (lines 92–164): validates amount > 0, account
existence and ownership (`g.user_id`), then creates a completed `deposit`
Transaction, updates the balance, and creates one credit ledger entry —
each in its own committed session.  The account's `is_active` flag is
never consulted. -/
def deposit (s : State) (user_id : Nat) (account_id : Nat) (amount : ℤ)
    (description : String) : State × Option String :=
  if amount ≤ 0 then (s, some "Amount must be greater than 0")
  else
    match get_account_by_id s account_id with
    | none => (s, some "Account not found")
    | some account =>
      if account.owner_id != user_id then (s, some "Unauthorized access")
      else
        let (s1, txid) := create_transaction s "deposit" amount none (some account_id)
          description "completed"
        let new_balance := account.balance + amount
        let s2 := update_account_balance s1 account_id new_balance
        let s3 := create_ledger_entry s2 account_id 0 amount new_balance "deposit"
          description (some txid)
        (s3, none)

/-- `banking_routes.withdraw` (lines 167–246): same validation as deposit
plus the sufficient-funds check `account.balance < amount`, performed before
any mutation; on success creates a completed `withdrawal` Transaction,
updates the balance, and creates one debit ledger entry. -/
def withdraw (s : State) (user_id : Nat) (account_id : Nat) (amount : ℤ)
    (description : String) : State × Option String :=
  if amount ≤ 0 then (s, some "Amount must be greater than 0")
  else
    match get_account_by_id s account_id with
    | none => (s, some "Account not found")
    | some account =>
      if account.owner_id != user_id then (s, some "Unauthorized access")
      else if account.balance < amount then (s, some "Insufficient funds")
      else
        let (s1, txid) := create_transaction s "withdrawal" amount (some account_id) none
          description "completed"
        let new_balance := account.balance - amount
        let s2 := update_account_balance s1 account_id new_balance
        let s3 := create_ledger_entry s2 account_id amount 0 new_balance "withdrawal"
          description (some txid)
        (s3, none)

/-- The validation prefix of `banking_routes.transfer` (lines 249–303):
amount > 0, sender fetched by id and owned by the caller, receiver fetched
by account number, sufficient funds on the sender.  Returns the two fetched
account snapshots on success. -/
def transferValidate (s : State) (user_id : Nat) (from_account_id : Nat)
    (to_account_number : String) (amount : ℤ) : Except String (Account × Account) :=
  if amount ≤ 0 then .error "Amount must be greater than 0"
  else
    match get_account_by_id s from_account_id with
    | none => .error "From account not found"
    | some from_account =>
      if from_account.owner_id != user_id then .error "Unauthorized access"
      else
        match get_account_by_number s to_account_number with
        | none => .error "To account not found"
        | some to_account =>
          if from_account.balance < amount then .error "Insufficient funds"
          else .ok (from_account, to_account)

/-- The five database calls of the success path of `banking_routes.transfer`
(lines 304–339), in source order.  Every element is one
`DatabaseService` call, i.e. one independently committed session; all
amounts and balances are computed from the validation-time snapshots, as in
the source.  The transfer Transaction's id is `s0.next_id`. -/
def transferSteps (s0 : State) (from_account to_account : Account) (amount : ℤ)
    (description : String) : List (State → State) :=
  let txid := s0.next_id
  [ fun st => (create_transaction st "transfer" amount (some from_account.id)
      (some to_account.id) description "completed").1,
    fun st => update_account_balance st from_account.id (from_account.balance - amount),
    fun st => update_account_balance st to_account.id (to_account.balance + amount),
    fun st => create_ledger_entry st from_account.id amount 0
      (from_account.balance - amount) "transfer_out"
      (description ++ " to " ++ to_account.account_number) (some txid),
    fun st => create_ledger_entry st to_account.id 0 amount
      (to_account.balance + amount) "transfer_in"
      (description ++ " from " ++ from_account.account_number) (some txid) ]

/-- `banking_routes.transfer` (lines 249–352), normal execution: validation
followed by the five independently committed steps. -/
def transfer (s : State) (user_id : Nat) (from_account_id : Nat)
    (to_account_number : String) (amount : ℤ) (description : String) :
    State × Option String :=
  match transferValidate s user_id from_account_id to_account_number amount with
  | .error e => (s, some e)
  | .ok (from_account, to_account) =>
    ((transferSteps s from_account to_account amount description).foldl
      (fun st f => f st) s, none)

/-- `banking_routes.transfer` executed while the database raises an
infrastructure exception at step `failAt` (0-based) of the success path.
The steps already executed were each committed by their own
`session_scope`, so they persist; the route's `except` handler merely
returns the generic 500 error with no compensation. -/
def transferFI (failAt : Nat) (s : State) (user_id : Nat) (from_account_id : Nat)
    (to_account_number : String) (amount : ℤ) (description : String) :
    State × Option String :=
  match transferValidate s user_id from_account_id to_account_number amount with
  | .error e => (s, some e)
  | .ok (from_account, to_account) =>
    (((transferSteps s from_account to_account amount description).take failAt).foldl
      (fun st f => f st) s, some "Transfer failed")

end Flask

namespace Flask

theorem findById_id {l : List Account} {q : Nat} {x : Account}
    (h : findById l q = some x) : x.id = q := by
  have h' : l.find? (fun a => a.id == q) = some x := h
  have hp := List.find?_some h'
  exact eq_of_beq hp

theorem findById_mem {l : List Account} {q : Nat} {x : Account}
    (h : findById l q = some x) : x ∈ l := by
  have h' : l.find? (fun a => a.id == q) = some x := h
  exact List.mem_of_find?_eq_some h'

theorem byNumber_mem {s : State} {n : String} {x : Account}
    (h : get_account_by_number s n = some x) : x ∈ s.accounts := by
  have h' : s.accounts.find? (fun a => a.account_number == n) = some x := h
  exact List.mem_of_find?_eq_some h'

theorem byNumber_number {s : State} {n : String} {x : Account}
    (h : get_account_by_number s n = some x) : x.account_number = n := by
  have h' : s.accounts.find? (fun a => a.account_number == n) = some x := h
  have hp := List.find?_some h'
  exact eq_of_beq hp

/-- Looking a row up after `update_account_balance` finds the same row, with
both balance fields rewritten when the ids match. -/
theorem findById_updateList (l : List Account) (i : Nat) (nb : ℤ) (q : Nat) :
    findById (updateList l i nb) q
      = (findById l q).map (fun a =>
          if a.id == i then { a with balance := nb, available_balance := nb } else a) := by
  have hp : ((fun a : Account => a.id == q) ∘ fun a =>
        if a.id == i then { a with balance := nb, available_balance := nb } else a)
      = fun a : Account => a.id == q := by
    funext a
    show ((if a.id == i then
        ({ a with balance := nb, available_balance := nb } : Account) else a).id == q)
      = (a.id == q)
    cases h : (a.id == i) with
    | true => simp [h]
    | false => simp [h]
  show (l.map _).find? _ = _
  rw [List.find?_map, hp]
  rfl

theorem findById_update_self {l : List Account} {q : Nat} {x : Account} (nb : ℤ)
    (h : findById l q = some x) :
    findById (updateList l q nb) q
      = some { x with balance := nb, available_balance := nb } := by
  rw [findById_updateList, h]
  have hx : x.id = q := findById_id h
  simp [Option.map, hx]

theorem findById_update_ne (l : List Account) (i : Nat) (nb : ℤ) (q : Nat)
    (hq : i ≠ q) :
    findById (updateList l i nb) q = findById l q := by
  rw [findById_updateList]
  cases hf : findById l q with
  | none => rfl
  | some x =>
    have hx : x.id = q := findById_id hf
    have hb : (x.id == i) = false := by
      rw [hx]
      simp
      exact fun hc => hq hc.symm
    simp [Option.map, hb]

theorem updateList_nonneg {l : List Account} {i : Nat} {nb : ℤ} (hnb : 0 ≤ nb)
    (h : ∀ a ∈ l, 0 ≤ a.balance) :
    ∀ x ∈ updateList l i nb, 0 ≤ x.balance := by
  intro x hx
  simp only [updateList, List.mem_map] at hx
  obtain ⟨a, ha, hfa⟩ := hx
  cases hc : (a.id == i) with
  | true => rw [← hfa]; simp [hc]; exact hnb
  | false => rw [← hfa]; simp [hc]; exact h a ha

theorem updateList_mem_id {l : List Account} {i : Nat} {nb : ℤ} :
    ∀ x ∈ updateList l i nb, x.id = i → x.available_balance = x.balance := by
  intro x hx hid
  simp only [updateList, List.mem_map] at hx
  obtain ⟨a, ha, hfa⟩ := hx
  cases hc : (a.id == i) with
  | true => rw [← hfa]; simp [hc]
  | false =>
    rw [← hfa] at hid ⊢
    simp [hc] at hid ⊢
    exact absurd hid (by simpa using hc)

theorem updateList_mem_ne {l : List Account} {i : Nat} {nb : ℤ} :
    ∀ x ∈ updateList l i nb, x.id ≠ i → x ∈ l := by
  intro x hx hid
  simp only [updateList, List.mem_map] at hx
  obtain ⟨a, ha, hfa⟩ := hx
  cases hc : (a.id == i) with
  | true =>
    rw [← hfa] at hid
    simp [hc] at hid
    exact absurd (eq_of_beq hc) hid
  | false =>
    rw [← hfa]
    simp [hc]
    exact ha

/-- Inversion of the validation prefix of `banking_routes.transfer`. -/
theorem transferValidate_ok {s : State} {uid fid : Nat} {num : String} {amount : ℤ}
    {fa ta : Account}
    (h : transferValidate s uid fid num amount = .ok (fa, ta)) :
    0 < amount ∧ get_account_by_id s fid = some fa ∧ fa.owner_id = uid ∧
    get_account_by_number s num = some ta ∧ amount ≤ fa.balance := by
  unfold transferValidate at h
  by_cases h0 : amount ≤ 0
  · simp [h0] at h
  · simp only [h0, if_false, ite_false] at h
    cases hacc : get_account_by_id s fid with
    | none => rw [hacc] at h; exact absurd h (by simp)
    | some fa' =>
      rw [hacc] at h
      cases hb : (fa'.owner_id != uid) with
      | true => simp [hb] at h
      | false =>
        simp only [hb, if_false, ite_false, Bool.false_eq_true] at h
        cases hnum : get_account_by_number s num with
        | none => rw [hnum] at h; exact absurd h (by simp)
        | some ta' =>
          rw [hnum] at h
          by_cases hf : fa'.balance < amount
          · simp [hf] at h
          · simp only [hf, if_false, ite_false] at h
            have hfa : fa' = fa := by
              have := congrArg (fun r => match r with
                | Except.ok (p : Account × Account) => p.1
                | Except.error _ => fa') h
              simpa using this
            have hta : ta' = ta := by
              have := congrArg (fun r => match r with
                | Except.ok (p : Account × Account) => p.2
                | Except.error _ => ta') h
              simpa using this
            refine ⟨lt_of_not_le h0, ?_, ?_, ?_, ?_⟩
            · rw [hfa]
            · rw [← hfa]
              simpa using hb
            · rw [hta]
            · rw [← hfa]
              exact not_lt.mp hf

/-- Characterization of a successful Flask transfer: one completed `transfer`
Transaction is appended, and exactly two ledger entries are appended sharing
that Transaction's id, a debit of `amount` on the sender and a credit of
`amount` on the receiver, each carrying the post-transfer balance of its
account computed from the validation-time snapshots. -/
theorem transfer_commits {s : State} {uid fid : Nat} {num : String} {amount : ℤ}
    {fa ta : Account} (d : String)
    (hv : transferValidate s uid fid num amount = .ok (fa, ta)) :
    (transfer s uid fid num amount d).2 = none ∧
    (transfer s uid fid num amount d).1.transactions = s.transactions ++
      [{ id := s.next_id, from_account_id := some fa.id, to_account_id := some ta.id,
         amount := amount, transaction_type := "transfer", status := "completed",
         description := d }] ∧
    (transfer s uid fid num amount d).1.ledgers = s.ledgers ++
      [{ account_id := fa.id, transaction_id := some s.next_id, debit := amount,
         credit := 0, balance_after := fa.balance - amount,
         entry_type := "transfer_out",
         description := d ++ " to " ++ ta.account_number },
       { account_id := ta.id, transaction_id := some s.next_id, debit := 0,
         credit := amount, balance_after := ta.balance + amount,
         entry_type := "transfer_in",
         description := d ++ " from " ++ fa.account_number }] ∧
    (transfer s uid fid num amount d).1.accounts
      = updateList (updateList s.accounts fa.id (fa.balance - amount))
          ta.id (ta.balance + amount) := by
  simp only [transfer, hv]
  refine ⟨?_, ?_, ?_, ?_⟩ <;>
    simp [transferSteps, create_transaction, update_account_balance, create_ledger_entry]

/-- A Flask transfer interrupted by an infrastructure failure at the third
database call (after the transfer Transaction and the sender debit have each
been committed by their own sessions): the sender's balance is durably
decreased while the receiver's row is untouched. -/
theorem transferFI_partial {s : State} {uid fid : Nat} {num : String} {amount : ℤ}
    {fa ta : Account} (d : String)
    (hv : transferValidate s uid fid num amount = .ok (fa, ta))
    (hne : ta.id ≠ fa.id) :
    (transferFI 2 s uid fid num amount d).2 = some "Transfer failed" ∧
    get_account_by_id (transferFI 2 s uid fid num amount d).1 fa.id
      = some { fa with
          balance := fa.balance - amount,
          available_balance := fa.balance - amount } ∧
    get_account_by_id (transferFI 2 s uid fid num amount d).1 ta.id
      = get_account_by_id s ta.id := by
  obtain ⟨hamt, hfa, hown, hta, hfunds⟩ := transferValidate_ok hv
  have hfa0 : findById s.accounts fid = some fa := hfa
  have hfa' : findById s.accounts fa.id = some fa := by
    rw [findById_id hfa0]
    exact hfa0
  refine ⟨by simp [transferFI, hv], ?_, ?_⟩
  · show findById (transferFI 2 s uid fid num amount d).1.accounts fa.id = _
    have hacc : (transferFI 2 s uid fid num amount d).1.accounts
        = updateList s.accounts fa.id (fa.balance - amount) := by
      simp [transferFI, hv, transferSteps, create_transaction, update_account_balance]
    rw [hacc]
    exact findById_update_self _ hfa'
  · show findById (transferFI 2 s uid fid num amount d).1.accounts ta.id
      = get_account_by_id s ta.id
    have hacc : (transferFI 2 s uid fid num amount d).1.accounts
        = updateList s.accounts fa.id (fa.balance - amount) := by
      simp [transferFI, hv, transferSteps, create_transaction, update_account_balance]
    rw [hacc, findById_update_ne _ _ _ _ (fun hc => hne hc.symm)]
    rfl

/-- Characterization of a successful Flask deposit on any existing, owned
account (its `is_active` flag plays no role): both balance fields grow by
`amount` and one completed Transaction plus one credit ledger entry are
appended. -/
theorem deposit_commits {s : State} {uid aid : Nat} {acc : Account} {amount : ℤ}
    (d : String) (hacc : get_account_by_id s aid = some acc)
    (hown : acc.owner_id = uid) (hamt : 0 < amount) :
    (deposit s uid aid amount d).2 = none ∧
    get_account_by_id (deposit s uid aid amount d).1 aid
      = some { acc with
          balance := acc.balance + amount,
          available_balance := acc.balance + amount } ∧
    (deposit s uid aid amount d).1.transactions = s.transactions ++
      [{ id := s.next_id, from_account_id := none, to_account_id := some aid,
         amount := amount, transaction_type := "deposit", status := "completed",
         description := d }] ∧
    (deposit s uid aid amount d).1.ledgers = s.ledgers ++
      [{ account_id := aid, transaction_id := some s.next_id, debit := 0,
         credit := amount, balance_after := acc.balance + amount,
         entry_type := "deposit", description := d }] := by
  have hnle : ¬ amount ≤ 0 := not_le.mpr hamt
  have hbne : (acc.owner_id != uid) = false := by simp [hown]
  have hacc' : findById s.accounts aid = some acc := hacc
  have haccs : (deposit s uid aid amount d).1.accounts
      = updateList s.accounts aid (acc.balance + amount) := by
    simp [deposit, hacc, hnle, hbne, create_transaction, update_account_balance,
      create_ledger_entry]
  refine ⟨?_, ?_, ?_, ?_⟩
  · simp [deposit, hacc, hnle, hbne, create_transaction, update_account_balance,
      create_ledger_entry]
  · show findById (deposit s uid aid amount d).1.accounts aid = _
    rw [haccs]
    exact findById_update_self _ hacc'
  · simp [deposit, hacc, hnle, hbne, create_transaction, update_account_balance,
      create_ledger_entry]
  · simp [deposit, hacc, hnle, hbne, create_transaction, update_account_balance,
      create_ledger_entry]

/-- A Flask withdrawal with `balance < amount` fails with `Insufficient
funds` and the state — balances, Transactions, ledger — is exactly the
input state. -/
theorem withdraw_insufficient {s : State} {uid aid : Nat} {acc : Account}
    {amount : ℤ} (d : String) (hacc : get_account_by_id s aid = some acc)
    (hown : acc.owner_id = uid) (hamt : 0 < amount)
    (hlow : acc.balance < amount) :
    withdraw s uid aid amount d = (s, some "Insufficient funds") := by
  have hnle : ¬ amount ≤ 0 := not_le.mpr hamt
  have hbne : (acc.owner_id != uid) = false := by simp [hown]
  simp [withdraw, hacc, hnle, hbne, hlow]

/-- A Flask transfer with sender `balance < amount` fails with `Insufficient
funds` and no state change. -/
theorem transfer_insufficient {s : State} {uid fid : Nat} {num : String}
    {fa ta : Account} {amount : ℤ} (d : String)
    (hfa : get_account_by_id s fid = some fa) (hown : fa.owner_id = uid)
    (hta : get_account_by_number s num = some ta) (hamt : 0 < amount)
    (hlow : fa.balance < amount) :
    transfer s uid fid num amount d = (s, some "Insufficient funds") := by
  have hnle : ¬ amount ≤ 0 := not_le.mpr hamt
  have hbne : (fa.owner_id != uid) = false := by simp [hown]
  have hv : transferValidate s uid fid num amount = .error "Insufficient funds" := by
    simp [transferValidate, hfa, hta, hnle, hbne, hlow]
  simp [transfer, hv]

/-- Flask deposits preserve non-negativity of every balance. -/
theorem deposit_nonneg (s : State) (uid aid : Nat) (amount : ℤ) (d : String)
    (h : ∀ a ∈ s.accounts, 0 ≤ a.balance) :
    ∀ x ∈ (deposit s uid aid amount d).1.accounts, 0 ≤ x.balance := by
  by_cases h0 : amount ≤ 0
  · have hs : (deposit s uid aid amount d).1 = s := by simp [deposit, h0]
    rw [hs]; exact h
  · cases hacc : get_account_by_id s aid with
    | none =>
      have hs : (deposit s uid aid amount d).1 = s := by simp [deposit, h0, hacc]
      rw [hs]; exact h
    | some acc =>
      cases hb : (acc.owner_id != uid) with
      | true =>
        have hs : (deposit s uid aid amount d).1 = s := by simp [deposit, h0, hacc, hb]
        rw [hs]; exact h
      | false =>
        have haccs : (deposit s uid aid amount d).1.accounts
            = updateList s.accounts aid (acc.balance + amount) := by
          simp [deposit, h0, hacc, hb, create_transaction, update_account_balance,
            create_ledger_entry]
        rw [haccs]
        exact updateList_nonneg
          (add_nonneg (h acc (findById_mem hacc)) (le_of_lt (lt_of_not_le h0))) h

/-- Flask withdrawals preserve non-negativity of every balance: the
sufficient-funds check runs before the mutation. -/
theorem withdraw_nonneg (s : State) (uid aid : Nat) (amount : ℤ) (d : String)
    (h : ∀ a ∈ s.accounts, 0 ≤ a.balance) :
    ∀ x ∈ (withdraw s uid aid amount d).1.accounts, 0 ≤ x.balance := by
  by_cases h0 : amount ≤ 0
  · have hs : (withdraw s uid aid amount d).1 = s := by simp [withdraw, h0]
    rw [hs]; exact h
  · cases hacc : get_account_by_id s aid with
    | none =>
      have hs : (withdraw s uid aid amount d).1 = s := by simp [withdraw, h0, hacc]
      rw [hs]; exact h
    | some acc =>
      cases hb : (acc.owner_id != uid) with
      | true =>
        have hs : (withdraw s uid aid amount d).1 = s := by simp [withdraw, h0, hacc, hb]
        rw [hs]; exact h
      | false =>
        by_cases hlow : acc.balance < amount
        · have hs : (withdraw s uid aid amount d).1 = s := by
            simp [withdraw, h0, hacc, hb, hlow]
          rw [hs]; exact h
        · have haccs : (withdraw s uid aid amount d).1.accounts
              = updateList s.accounts aid (acc.balance - amount) := by
            simp [withdraw, h0, hacc, hb, hlow, create_transaction,
              update_account_balance, create_ledger_entry]
          rw [haccs]
          exact updateList_nonneg (sub_nonneg.mpr (not_lt.mp hlow)) h

/-- Flask transfers preserve non-negativity of every balance. -/
theorem transfer_nonneg (s : State) (uid fid : Nat) (num : String) (amount : ℤ)
    (d : String) (h : ∀ a ∈ s.accounts, 0 ≤ a.balance) :
    ∀ x ∈ (transfer s uid fid num amount d).1.accounts, 0 ≤ x.balance := by
  cases hv : transferValidate s uid fid num amount with
  | error e =>
    have hs : (transfer s uid fid num amount d).1 = s := by simp [transfer, hv]
    rw [hs]; exact h
  | ok p =>
    obtain ⟨fa, ta⟩ := p
    obtain ⟨hamt, hfa, hown, hta, hfunds⟩ := transferValidate_ok hv
    have haccs := (transfer_commits d hv).2.2.2
    rw [haccs]
    refine updateList_nonneg ?_ (updateList_nonneg ?_ h)
    · exact add_nonneg (h ta (byNumber_mem hta)) (le_of_lt hamt)
    · exact sub_nonneg.mpr hfunds

/-- After a Flask deposit the affected account's `available_balance` equals
its `balance`, because `update_account_balance` writes both fields. -/
theorem deposit_avail {s : State} {uid aid : Nat} {acc : Account} {amount : ℤ}
    (d : String) (hacc : get_account_by_id s aid = some acc)
    (hown : acc.owner_id = uid) (hamt : 0 < amount) :
    ∀ x ∈ (deposit s uid aid amount d).1.accounts, x.id = aid →
      x.available_balance = x.balance := by
  have hnle : ¬ amount ≤ 0 := not_le.mpr hamt
  have hbne : (acc.owner_id != uid) = false := by simp [hown]
  have haccs : (deposit s uid aid amount d).1.accounts
      = updateList s.accounts aid (acc.balance + amount) := by
    simp [deposit, hacc, hnle, hbne, create_transaction, update_account_balance,
      create_ledger_entry]
  rw [haccs]
  exact updateList_mem_id

/-- After a Flask withdrawal the affected account's `available_balance`
equals its `balance`. -/
theorem withdraw_avail {s : State} {uid aid : Nat} {acc : Account} {amount : ℤ}
    (d : String) (hacc : get_account_by_id s aid = some acc)
    (hown : acc.owner_id = uid) (hamt : 0 < amount)
    (hge : ¬ acc.balance < amount) :
    ∀ x ∈ (withdraw s uid aid amount d).1.accounts, x.id = aid →
      x.available_balance = x.balance := by
  have hnle : ¬ amount ≤ 0 := not_le.mpr hamt
  have hbne : (acc.owner_id != uid) = false := by simp [hown]
  have haccs : (withdraw s uid aid amount d).1.accounts
      = updateList s.accounts aid (acc.balance - amount) := by
    simp [withdraw, hacc, hnle, hbne, hge, create_transaction,
      update_account_balance, create_ledger_entry]
  rw [haccs]
  exact updateList_mem_id

/-- After a Flask transfer both affected accounts have `available_balance`
equal to `balance`. -/
theorem transfer_avail {s : State} {uid fid : Nat} {num : String} {amount : ℤ}
    {fa ta : Account} (d : String)
    (hv : transferValidate s uid fid num amount = .ok (fa, ta)) :
    ∀ x ∈ (transfer s uid fid num amount d).1.accounts,
      x.id = fa.id ∨ x.id = ta.id → x.available_balance = x.balance := by
  have haccs := (transfer_commits d hv).2.2.2
  rw [haccs]
  intro x hx hor
  by_cases hxta : x.id = ta.id
  · exact updateList_mem_id x hx hxta
  · have hxfa : x.id = fa.id := hor.resolve_right hxta
    have hx' : x ∈ updateList s.accounts fa.id (fa.balance - amount) :=
      updateList_mem_ne x hx hxta
    exact updateList_mem_id x hx' hxfa

end Flask

namespace Django

/-- Every failing path of the Django transfer view leaves the state
untouched (serializer failures happen before the atomic block; an in-block
exception rolls the block back). -/
theorem transfer_error_unchanged (s : State) (A B : Nat) (amount : ℤ)
    (d : String) (now : Nat) {e : String}
    (h : (transfer s A B amount d now).2 = some e) :
    (transfer s A B amount d now).1 = s := by
  unfold transfer at h ⊢
  cases h1 : findAccount s A with
  | none => simp
  | some a =>
    cases h2 : TransferCreateSerializer_validate s none B amount with
    | some msg => simp [h2]
    | none =>
      cases h3 : findAccount s B with
      | none => simp [h2, h3]
      | some b =>
        rw [h1, h2, h3] at h
        simp at h

/-- `transaction.atomic` rollback: a Django transfer interrupted by an
exception at any step of its atomic block leaves the state exactly as it
was. -/
theorem transferFI_rollback (k : Nat) (s : State) (A B : Nat) (amount : ℤ)
    (d : String) (now : Nat) :
    (transferFI (some k) s A B amount d now).1 = s := by
  cases hr : transfer s A B amount d now with
  | mk s' e =>
    cases e with
    | none => simp [transferFI, hr]
    | some msg =>
      have h2 : (transfer s A B amount d now).2 = some msg := by rw [hr]
      have h1 : (transfer s A B amount d now).1 = s :=
        transfer_error_unchanged s A B amount d now h2
      rw [hr] at h1
      simp [transferFI, hr, h1]

end Django

/-! ## Concrete fixtures (used by witnesses and counterexamples) -/

namespace Django

/-- Account A: pk 1, active, balance 1000.00. -/
def accountA : Account :=
  { pk := 1, name := "A", balance := 1000, status := "active", is_active := true }

/-- Account B: pk 2, active, balance 500.00. -/
def accountB : Account :=
  { pk := 2, name := "B", balance := 500, status := "active", is_active := true }

/-- Account A with balance 50.00. -/
def accountA50 : Account := { accountA with balance := 50 }

/-- Account C: pk 3, status closed, balance 20.00. -/
def accountC : Account :=
  { pk := 3, name := "C", balance := 20, status := "closed", is_active := false }

/-- Fresh state holding accounts A and B. -/
def stateAB : State := { accounts := [accountA, accountB], transfers := [], transactions := [] }

/-- Fresh state where A's balance is 50.00. -/
def stateA50B : State :=
  { accounts := [accountA50, accountB], transfers := [], transactions := [] }

/-- Fresh state holding only the closed account C. -/
def stateC : State := { accounts := [accountC], transfers := [], transactions := [] }

end Django

namespace Flask

/-- Account with id 1, number ACC001, owner 10, balance 1000.00. -/
def accA : Account :=
  { id := 1, account_number := "ACC001", owner_id := 10, balance := 1000,
    available_balance := 1000, is_active := true }

/-- Account with id 2, number ACC002, owner 20, balance 500.00. -/
def accB : Account :=
  { id := 2, account_number := "ACC002", owner_id := 20, balance := 500,
    available_balance := 500, is_active := true }

/-- Account A with balance 50.00. -/
def accA50 : Account := { accA with balance := 50, available_balance := 50 }

/-- Inactive account with id 3, owner 30, balance 20.00. -/
def accC : Account :=
  { id := 3, account_number := "ACC003", owner_id := 30, balance := 20,
    available_balance := 20, is_active := false }

/-- Fresh state holding accounts 1 and 2. -/
def stAB : State := { accounts := [accA, accB], transactions := [], ledgers := [], next_id := 0 }

/-- Fresh state where account 1 has balance 50.00. -/
def stA50B : State :=
  { accounts := [accA50, accB], transactions := [], ledgers := [], next_id := 0 }

/-- Fresh state holding only the inactive account 3. -/
def stC : State := { accounts := [accC], transactions := [], ledgers := [], next_id := 0 }

end Flask

namespace Django

theorem saveList_nonneg {l : List Account} {obj : Account} (hobj : 0 ≤ obj.balance)
    (h : ∀ a ∈ l, 0 ≤ a.balance) :
    ∀ x ∈ saveList l obj, 0 ≤ x.balance := by
  intro x hx
  simp only [saveList, List.mem_map] at hx
  obtain ⟨a, ha, hfa⟩ := hx
  cases hc : (a.pk == obj.pk) with
  | true => rw [← hfa]; simp [hc]; exact hobj
  | false => rw [← hfa]; simp [hc]; exact h a ha

/-- Django deposits preserve non-negativity of every balance (the amount is
validated positive before the mutation). -/
theorem deposit_preserves_nonneg (s : State) (pk : Nat) (amount : ℤ) (m d : String)
    (h : ∀ a ∈ s.accounts, 0 ≤ a.balance) :
    ∀ x ∈ (deposit s pk amount m d).1.accounts, 0 ≤ x.balance := by
  cases hacc : findAccount s pk with
  | none =>
    have hs : (deposit s pk amount m d).1 = s := by simp [deposit, hacc]
    rw [hs]; exact h
  | some acc =>
    by_cases h0 : amount ≤ 0
    · have hs : (deposit s pk amount m d).1 = s := by simp [deposit, hacc, h0]
      rw [hs]; exact h
    · cases hm : depositMethods.contains m with
      | false =>
        have hm' : ¬ m ∈ depositMethods := by simpa using hm
        have hs : (deposit s pk amount m d).1 = s := by simp [deposit, hacc, h0, hm']
        rw [hs]; exact h
      | true =>
        have hm' : m ∈ depositMethods := by simpa using hm
        have haccs : (deposit s pk amount m d).1.accounts
            = saveList s.accounts { acc with balance := acc.balance + amount } := by
          simp [deposit, hacc, h0, hm', saveAccount]
        rw [haccs]
        refine saveList_nonneg ?_ h
        show 0 ≤ acc.balance + amount
        exact add_nonneg (h acc (findAccountIn_mem hacc)) (le_of_lt (lt_of_not_le h0))

end Django

/-! ## Claims -/

/-- C1, counterexample.  The claim says no engine operation can drive a
balance negative when all starting balances are non-negative.  The Django
transfer performs no insufficient-funds check: starting from A = 50.00 and
B = 500.00, `transfer(A, B, 100.00)` succeeds and leaves A at −50.00. -/
theorem C1_counterexample :
    (∀ a ∈ Django.stateA50B.accounts, 0 ≤ a.balance) ∧
    (Django.transfer Django.stateA50B 1 2 100 "overdraft" 0).2 = none ∧
    Django.findAccount (Django.transfer Django.stateA50B 1 2 100 "overdraft" 0).1 1
      = some { Django.accountA50 with balance := -50 } ∧
    ¬ (∀ a ∈ (Django.transfer Django.stateA50B 1 2 100 "overdraft" 0).1.accounts,
        0 ≤ a.balance) := by
  decide

/-- C2, counterexample.  The claim says every transfer with sender balance
strictly below the amount fails with `InsufficientFunds` and changes no
state.  The Django transfer has no funds check: with A = 50.00, transferring
100.00 succeeds and mutates the state. -/
theorem C2_counterexample :
    Django.accountA50.balance < 100 ∧
    (Django.transfer Django.stateA50B 1 2 100 "overdraft" 0).2 = none ∧
    (Django.transfer Django.stateA50B 1 2 100 "overdraft" 0).1 ≠ Django.stateA50B := by
  decide

/-- C3, counterexample.  The claim says a failure after partial mutation
rolls every effect back.  In the Flask variant each database call commits in
its own session: a failure at the third call (after the transfer Transaction
and the sender debit committed) leaves the sender durably debited to 900.00
while the receiver still holds 500.00 — a partial transfer is observable. -/
theorem C3_counterexample :
    (Flask.transferFI 2 Flask.stAB 10 1 "ACC002" 100 "pay").2 = some "Transfer failed" ∧
    Flask.get_account_by_id (Flask.transferFI 2 Flask.stAB 10 1 "ACC002" 100 "pay").1 1
      = some { Flask.accA with balance := 900, available_balance := 900 } ∧
    Flask.get_account_by_id (Flask.transferFI 2 Flask.stAB 10 1 "ACC002" 100 "pay").1 2
      = some Flask.accB ∧
    (Flask.transferFI 2 Flask.stAB 10 1 "ACC002" 100 "pay").1 ≠ Flask.stAB := by
  decide

/-- C4, counterexample.  The claim says every completed Transfer has exactly
two Transaction records with opposite-signed amounts.  A successful Flask
transfer records exactly ONE Transaction row (the completed `transfer`
transaction itself, with a single unsigned amount); the per-account pair is
kept in the Ledger table instead. -/
theorem C4_counterexample :
    (Flask.transfer Flask.stAB 10 1 "ACC002" 100 "pay").2 = none ∧
    (Flask.transfer Flask.stAB 10 1 "ACC002" 100 "pay").1.transactions.length = 1 ∧
    (∀ t ∈ (Flask.transfer Flask.stAB 10 1 "ACC002" 100 "pay").1.transactions,
      t.transaction_type = "transfer" ∧ t.status = "completed" ∧ t.amount = 100) := by
  decide

/-- C5.  Scenario 1 holds in both variants: transferring 100.00 from A
(1000.00) to B (500.00) succeeds, leaves A at 900.00 and B at 600.00, and
records one completed transfer with paired per-account records whose
`balance_after` snapshots are 900.00 and 600.00 (two Transaction rows in the
Django variant; the completed transfer Transaction plus two Ledger rows in
the Flask variant). -/
theorem C5_theorem :
    (Django.transfer Django.stateAB 1 2 100 "rent" 7).2 = none ∧
    Django.findAccount (Django.transfer Django.stateAB 1 2 100 "rent" 7).1 1
      = some { Django.accountA with balance := 900 } ∧
    Django.findAccount (Django.transfer Django.stateAB 1 2 100 "rent" 7).1 2
      = some { Django.accountB with balance := 600 } ∧
    (Django.transfer Django.stateAB 1 2 100 "rent" 7).1.transfers
      = [{ sender := 1, receiver := 2, amount := 100, description := "rent",
           status := "completed", completed_at := some 7 }] ∧
    (Django.transfer Django.stateAB 1 2 100 "rent" 7).1.transactions.map
        (fun t => (t.amount, t.balance_after, t.status))
      = [(-100, 900, "completed"), (100, 600, "completed")] ∧
    (Flask.transfer Flask.stAB 10 1 "ACC002" 100 "rent").2 = none ∧
    Flask.get_account_by_id (Flask.transfer Flask.stAB 10 1 "ACC002" 100 "rent").1 1
      = some { Flask.accA with balance := 900, available_balance := 900 } ∧
    Flask.get_account_by_id (Flask.transfer Flask.stAB 10 1 "ACC002" 100 "rent").1 2
      = some { Flask.accB with balance := 600, available_balance := 600 } ∧
    (Flask.transfer Flask.stAB 10 1 "ACC002" 100 "rent").1.transactions.map
        (fun t => (t.transaction_type, t.status)) = [("transfer", "completed")] ∧
    (Flask.transfer Flask.stAB 10 1 "ACC002" 100 "rent").1.ledgers.map
        (fun l => l.balance_after) = [900, 600] := by
  decide

/-- C6.  The claim (fail with `SameAccount`, no state change) matches the
serializer's own `validate` method, which rejects a self-transfer whenever
the `sender_account` context key is present — but `AccountViewSet.transfer`
builds the serializer with `context={'request': request}` only, so the check
never runs: `transfer(A, A, 10.00)` succeeds, creates a Transfer, and the
stale receiver snapshot overwrites the debit, leaving A at 1010.00. -/
theorem C6_theorem :
    Django.TransferCreateSerializer_validate Django.stateAB (some Django.accountA) 1 10
      = some "Cannot transfer to the same account" ∧
    (Django.transfer Django.stateAB 1 1 10 "self" 0).2 = none ∧
    Django.findAccount (Django.transfer Django.stateAB 1 1 10 "self" 0).1 1
      = some { Django.accountA with balance := 1010 } ∧
    (Django.transfer Django.stateAB 1 1 10 "self" 0).1.transfers ≠ [] := by
  decide

/-- C7, counterexample.  The claim says a deposit on a non-active account
fails with `AccountClosed` and leaves the account unchanged.  Neither
variant inspects the account's status: depositing 10.00 on the closed
Django account C (20.00) and on the inactive Flask account 3 (20.00)
succeeds and raises both balances to 30.00. -/
theorem C7_counterexample :
    Django.accountC.status = "closed" ∧
    (Django.deposit Django.stateC 3 10 "cash" "top-up").2 = none ∧
    Django.findAccount (Django.deposit Django.stateC 3 10 "cash" "top-up").1 3
      = some { Django.accountC with balance := 30 } ∧
    Flask.accC.is_active = false ∧
    (Flask.deposit Flask.stC 30 3 10 "top-up").2 = none ∧
    Flask.get_account_by_id (Flask.deposit Flask.stC 30 3 10 "top-up").1 3
      = some { Flask.accC with balance := 30, available_balance := 30 } := by
  decide

/-- C1, amended.  Non-negativity is preserved by every Flask operation
(deposit, withdraw, transfer — the latter two check funds before mutating)
and by the Django deposit; the Django transfer, which performs no
insufficient-funds check, is the sole exception (see the counterexample). -/
theorem C1_theorem :
    (∀ (s : Flask.State) (uid aid : Nat) (amount : ℤ) (d : String),
      (∀ a ∈ s.accounts, 0 ≤ a.balance) →
      ∀ x ∈ (Flask.deposit s uid aid amount d).1.accounts, 0 ≤ x.balance) ∧
    (∀ (s : Flask.State) (uid aid : Nat) (amount : ℤ) (d : String),
      (∀ a ∈ s.accounts, 0 ≤ a.balance) →
      ∀ x ∈ (Flask.withdraw s uid aid amount d).1.accounts, 0 ≤ x.balance) ∧
    (∀ (s : Flask.State) (uid fid : Nat) (num : String) (amount : ℤ) (d : String),
      (∀ a ∈ s.accounts, 0 ≤ a.balance) →
      ∀ x ∈ (Flask.transfer s uid fid num amount d).1.accounts, 0 ≤ x.balance) ∧
    (∀ (s : Django.State) (pk : Nat) (amount : ℤ) (m d : String),
      (∀ a ∈ s.accounts, 0 ≤ a.balance) →
      ∀ x ∈ (Django.deposit s pk amount m d).1.accounts, 0 ≤ x.balance) :=
  ⟨Flask.deposit_nonneg, Flask.withdraw_nonneg, Flask.transfer_nonneg,
   Django.deposit_preserves_nonneg⟩

/-- C1, witness: the preservation theorem applied to the concrete fixtures,
one application per operation. -/
theorem C1_witness :
    0 ≤ ({ Flask.accA with balance := 1025, available_balance := 1025 } : Flask.Account).balance ∧
    0 ≤ ({ Flask.accA with balance := 800, available_balance := 800 } : Flask.Account).balance ∧
    0 ≤ ({ Flask.accA with balance := 900, available_balance := 900 } : Flask.Account).balance ∧
    0 ≤ ({ Django.accountA with balance := 1025 } : Django.Account).balance :=
  ⟨C1_theorem.1 Flask.stAB 10 1 25 "d" (by decide) _ (by decide),
   C1_theorem.2.1 Flask.stAB 10 1 200 "w" (by decide) _ (by decide),
   C1_theorem.2.2.1 Flask.stAB 10 1 "ACC002" 100 "t" (by decide) _ (by decide),
   C1_theorem.2.2.2 Django.stateAB 1 25 "cash" "d" (by decide) _ (by decide)⟩

/-- C2, amended.  In the Flask variant both withdraw and transfer fail with
`Insufficient funds` and leave the state exactly unchanged (no Transaction,
no ledger entry, no balance change) whenever the (sender's) balance is
strictly below the amount; the Django transfer performs no funds check at
all (see the counterexample). -/
theorem C2_theorem :
    (∀ (s : Flask.State) (uid aid : Nat) (acc : Flask.Account) (amount : ℤ)
        (d : String),
      Flask.get_account_by_id s aid = some acc → acc.owner_id = uid →
      0 < amount → acc.balance < amount →
      Flask.withdraw s uid aid amount d = (s, some "Insufficient funds")) ∧
    (∀ (s : Flask.State) (uid fid : Nat) (num : String) (fa ta : Flask.Account)
        (amount : ℤ) (d : String),
      Flask.get_account_by_id s fid = some fa → fa.owner_id = uid →
      Flask.get_account_by_number s num = some ta → 0 < amount →
      fa.balance < amount →
      Flask.transfer s uid fid num amount d = (s, some "Insufficient funds")) :=
  ⟨fun s uid aid acc amount d h1 h2 h3 h4 =>
     Flask.withdraw_insufficient d h1 h2 h3 h4,
   fun s uid fid num fa ta amount d h1 h2 h3 h4 h5 =>
     Flask.transfer_insufficient d h1 h2 h3 h4 h5⟩

/-- C2, witness: with account 1 at 50.00, withdrawing and transferring
100.00 both fail with `Insufficient funds` and return the input state. -/
theorem C2_witness :
    Flask.withdraw Flask.stA50B 10 1 100 "w"
      = (Flask.stA50B, some "Insufficient funds") ∧
    Flask.transfer Flask.stA50B 10 1 "ACC002" 100 "t"
      = (Flask.stA50B, some "Insufficient funds") :=
  ⟨C2_theorem.1 Flask.stA50B 10 1 Flask.accA50 100 "w"
     (by decide) (by decide) (by decide) (by decide),
   C2_theorem.2 Flask.stA50B 10 1 "ACC002" Flask.accA50 Flask.accB 100 "t"
     (by decide) (by decide) (by decide) (by decide) (by decide)⟩

/-- C3, amended.  In the Django variant the four effects do commit as one
atomic unit: an exception at any step of the `transaction.atomic` block
leaves the state exactly as it was.  In the Flask variant each of the five
database calls commits in its own session, so a failure at the third call
leaves the sender durably debited while the receiver's row is untouched —
the partial transfer is observable and is not rolled back. -/
theorem C3_theorem :
    (∀ (k : Nat) (s : Django.State) (A B : Nat) (amount : ℤ) (d : String)
        (now : Nat),
      (Django.transferFI (some k) s A B amount d now).1 = s) ∧
    (∀ (s : Flask.State) (uid fid : Nat) (num : String) (amount : ℤ)
        (fa ta : Flask.Account) (d : String),
      Flask.transferValidate s uid fid num amount = .ok (fa, ta) → ta.id ≠ fa.id →
      (Flask.transferFI 2 s uid fid num amount d).2 = some "Transfer failed" ∧
      Flask.get_account_by_id (Flask.transferFI 2 s uid fid num amount d).1 fa.id
        = some { fa with
            balance := fa.balance - amount,
            available_balance := fa.balance - amount } ∧
      Flask.get_account_by_id (Flask.transferFI 2 s uid fid num amount d).1 ta.id
        = Flask.get_account_by_id s ta.id) :=
  ⟨Django.transferFI_rollback,
   fun s uid fid num amount fa ta d hv hne => Flask.transferFI_partial d hv hne⟩

/-- C3, witness: rollback of a faulted Django transfer on the concrete
state, and the durable partial state of a Flask transfer faulted at the
third call. -/
theorem C3_witness :
    (Django.transferFI (some 1) Django.stateAB 1 2 100 "t" 0).1 = Django.stateAB ∧
    ((Flask.transferFI 2 Flask.stAB 10 1 "ACC002" 100 "t").2 = some "Transfer failed" ∧
     Flask.get_account_by_id (Flask.transferFI 2 Flask.stAB 10 1 "ACC002" 100 "t").1
         Flask.accA.id
       = some { Flask.accA with
           balance := Flask.accA.balance - 100,
           available_balance := Flask.accA.balance - 100 } ∧
     Flask.get_account_by_id (Flask.transferFI 2 Flask.stAB 10 1 "ACC002" 100 "t").1
         Flask.accB.id
       = Flask.get_account_by_id Flask.stAB Flask.accB.id) :=
  ⟨C3_theorem.1 1 Django.stateAB 1 2 100 "t" 0,
   C3_theorem.2 Flask.stAB 10 1 "ACC002" 100 Flask.accA Flask.accB "t"
     rfl (by decide)⟩

/-- C7, amended.  Deposit validates only existence, ownership (Flask) and
the amount/method — it never inspects the account's `status`/`is_active`
flag: on any existing account, closed or not, a positive deposit succeeds
and increases the balance by the amount.  No `AccountClosed` failure exists
on the deposit path. -/
theorem C7_theorem :
    (∀ (s : Django.State) (pk : Nat) (acc : Django.Account) (amount : ℤ)
        (m d : String),
      Django.findAccount s pk = some acc → 0 < amount →
      Django.depositMethods.contains m = true →
      (Django.deposit s pk amount m d).2 = none ∧
      Django.findAccount (Django.deposit s pk amount m d).1 pk
        = some { acc with balance := acc.balance + amount }) ∧
    (∀ (s : Flask.State) (uid aid : Nat) (acc : Flask.Account) (amount : ℤ)
        (d : String),
      Flask.get_account_by_id s aid = some acc → acc.owner_id = uid → 0 < amount →
      (Flask.deposit s uid aid amount d).2 = none ∧
      Flask.get_account_by_id (Flask.deposit s uid aid amount d).1 aid
        = some { acc with
            balance := acc.balance + amount,
            available_balance := acc.balance + amount }) := by
  constructor
  · intro s pk acc amount m d hacc hamt hm
    obtain ⟨h1, h2, _, _, _⟩ := Django.deposit_success s pk acc amount m d hacc hamt hm
    exact ⟨h1, h2⟩
  · intro s uid aid acc amount d hacc hown hamt
    obtain ⟨h1, h2, _, _⟩ := Flask.deposit_commits d hacc hown hamt
    exact ⟨h1, h2⟩

/-- C7, witness: the theorem applied to the closed Django account C and the
inactive Flask account 3 — both deposits succeed. -/
theorem C7_witness :
    ((Django.deposit Django.stateC 3 10 "cash" "w").2 = none ∧
     Django.findAccount (Django.deposit Django.stateC 3 10 "cash" "w").1 3
       = some { Django.accountC with balance := Django.accountC.balance + 10 }) ∧
    ((Flask.deposit Flask.stC 30 3 10 "w").2 = none ∧
     Flask.get_account_by_id (Flask.deposit Flask.stC 30 3 10 "w").1 3
       = some { Flask.accC with
           balance := Flask.accC.balance + 10,
           available_balance := Flask.accC.balance + 10 }) :=
  ⟨C7_theorem.1 Django.stateC 3 Django.accountC 10 "cash" "w"
     (by decide) (by decide) (by decide),
   C7_theorem.2 Flask.stC 30 3 Flask.accC 10 "w" (by decide) (by decide) (by decide)⟩

/-- C9.  Every balance-mutating Flask operation writes the same new value to
`balance` and `available_balance` (`DatabaseService.update_account_balance`),
so each affected account leaves the operation with the two fields equal. -/
theorem C9_theorem :
    (∀ (s : Flask.State) (uid aid : Nat) (acc : Flask.Account) (amount : ℤ)
        (d : String),
      Flask.get_account_by_id s aid = some acc → acc.owner_id = uid → 0 < amount →
      ∀ x ∈ (Flask.deposit s uid aid amount d).1.accounts, x.id = aid →
        x.available_balance = x.balance) ∧
    (∀ (s : Flask.State) (uid aid : Nat) (acc : Flask.Account) (amount : ℤ)
        (d : String),
      Flask.get_account_by_id s aid = some acc → acc.owner_id = uid → 0 < amount →
      ¬ acc.balance < amount →
      ∀ x ∈ (Flask.withdraw s uid aid amount d).1.accounts, x.id = aid →
        x.available_balance = x.balance) ∧
    (∀ (s : Flask.State) (uid fid : Nat) (num : String) (amount : ℤ)
        (fa ta : Flask.Account) (d : String),
      Flask.transferValidate s uid fid num amount = .ok (fa, ta) →
      ∀ x ∈ (Flask.transfer s uid fid num amount d).1.accounts,
        x.id = fa.id ∨ x.id = ta.id → x.available_balance = x.balance) :=
  ⟨fun s uid aid acc amount d h1 h2 h3 => Flask.deposit_avail d h1 h2 h3,
   fun s uid aid acc amount d h1 h2 h3 h4 => Flask.withdraw_avail d h1 h2 h3 h4,
   fun s uid fid num amount fa ta d hv => Flask.transfer_avail d hv⟩

/-- C9, witness: the theorem applied to a concrete deposit and a concrete
transfer; the affected rows carry equal balance fields. -/
theorem C9_witness :
    ({ Flask.accA with balance := 1025, available_balance := 1025 }
        : Flask.Account).available_balance
      = ({ Flask.accA with balance := 1025, available_balance := 1025 }
          : Flask.Account).balance ∧
    ({ Flask.accA with balance := 900, available_balance := 900 }
        : Flask.Account).available_balance
      = ({ Flask.accA with balance := 900, available_balance := 900 }
          : Flask.Account).balance :=
  ⟨C9_theorem.1 Flask.stAB 10 1 Flask.accA 25 "d" (by decide) (by decide) (by decide)
     _ (by decide) (by decide),
   C9_theorem.2.2 Flask.stAB 10 1 "ACC002" 100 Flask.accA Flask.accB "t" rfl
     _ (by decide) (by decide)⟩

/-- C4, amended.  Each successful transfer creates exactly two paired
per-account records with correct `balance_after` values: in the Django
variant two Transaction rows with opposite-signed amounts of equal
magnitude, linked to each other only through `related_account` (the
Transaction model has no Transfer-id field, so no correlation with the
Transfer record exists); in the Flask variant one completed `transfer`
Transaction row plus exactly two Ledger rows that share that Transaction's
id as correlation, a debit and a credit of equal magnitude. -/
theorem C4_theorem :
    (∀ (s : Django.State) (A B : Nat) (a b : Django.Account) (amount : ℤ)
        (d : String) (now : Nat),
      Django.findAccount s A = some a → Django.findAccount s B = some b →
      A ≠ B → 0 < amount →
      ∃ tx_out tx_in : Django.Transaction,
        (Django.transfer s A B amount d now).1.transactions
          = s.transactions ++ [tx_out, tx_in] ∧
        tx_out.account = A ∧ tx_in.account = B ∧
        tx_out.amount = -amount ∧ tx_in.amount = amount ∧
        tx_out.balance_after = a.balance - amount ∧
        tx_in.balance_after = b.balance + amount ∧
        tx_out.related_account = some B ∧ tx_in.related_account = some A ∧
        tx_out.status = "completed" ∧ tx_in.status = "completed" ∧
        (Django.transfer s A B amount d now).1.transfers = s.transfers ++
          [{ sender := A, receiver := B, amount := amount, description := d,
             status := "completed", completed_at := some now }]) ∧
    (∀ (s : Flask.State) (uid fid : Nat) (num : String) (amount : ℤ)
        (fa ta : Flask.Account) (d : String),
      Flask.transferValidate s uid fid num amount = .ok (fa, ta) →
      ∃ tx : Flask.Transaction, ∃ l_out l_in : Flask.Ledger,
        (Flask.transfer s uid fid num amount d).1.transactions
          = s.transactions ++ [tx] ∧
        (Flask.transfer s uid fid num amount d).1.ledgers
          = s.ledgers ++ [l_out, l_in] ∧
        tx.transaction_type = "transfer" ∧ tx.status = "completed" ∧
        l_out.transaction_id = some tx.id ∧ l_in.transaction_id = some tx.id ∧
        l_out.debit = amount ∧ l_out.credit = 0 ∧
        l_in.debit = 0 ∧ l_in.credit = amount ∧
        l_out.account_id = fa.id ∧ l_in.account_id = ta.id ∧
        l_out.balance_after = fa.balance - amount ∧
        l_in.balance_after = ta.balance + amount) := by
  constructor
  · intro s A B a b amount d now hA hB hAB hamt
    obtain ⟨h1, h2, h3, h4, h5, h6⟩ :=
      Django.transfer_success s A B a b amount d now hA hB hAB hamt
    exact ⟨_, _, h6, rfl, rfl, rfl, rfl, rfl, rfl, rfl, rfl, rfl, rfl, h5⟩
  · intro s uid fid num amount fa ta d hv
    obtain ⟨h1, h2, h3, h4⟩ := Flask.transfer_commits d hv
    exact ⟨_, _, _, h2, h3, rfl, rfl, rfl, rfl, rfl, rfl, rfl, rfl, rfl, rfl, rfl, rfl⟩

/-- C4, witness: the pairing theorem applied to the concrete fixtures in
both variants. -/
theorem C4_witness :
    (∃ tx_out tx_in : Django.Transaction,
      (Django.transfer Django.stateAB 1 2 100 "t" 7).1.transactions
        = Django.stateAB.transactions ++ [tx_out, tx_in] ∧
      tx_out.account = 1 ∧ tx_in.account = 2 ∧
      tx_out.amount = -100 ∧ tx_in.amount = 100 ∧
      tx_out.balance_after = Django.accountA.balance - 100 ∧
      tx_in.balance_after = Django.accountB.balance + 100 ∧
      tx_out.related_account = some 2 ∧ tx_in.related_account = some 1 ∧
      tx_out.status = "completed" ∧ tx_in.status = "completed" ∧
      (Django.transfer Django.stateAB 1 2 100 "t" 7).1.transfers
        = Django.stateAB.transfers ++
          [{ sender := 1, receiver := 2, amount := 100, description := "t",
             status := "completed", completed_at := some 7 }]) ∧
    (∃ tx : Flask.Transaction, ∃ l_out l_in : Flask.Ledger,
      (Flask.transfer Flask.stAB 10 1 "ACC002" 100 "t").1.transactions
        = Flask.stAB.transactions ++ [tx] ∧
      (Flask.transfer Flask.stAB 10 1 "ACC002" 100 "t").1.ledgers
        = Flask.stAB.ledgers ++ [l_out, l_in] ∧
      tx.transaction_type = "transfer" ∧ tx.status = "completed" ∧
      l_out.transaction_id = some tx.id ∧ l_in.transaction_id = some tx.id ∧
      l_out.debit = 100 ∧ l_out.credit = 0 ∧
      l_in.debit = 0 ∧ l_in.credit = 100 ∧
      l_out.account_id = Flask.accA.id ∧ l_in.account_id = Flask.accB.id ∧
      l_out.balance_after = Flask.accA.balance - 100 ∧
      l_in.balance_after = Flask.accB.balance + 100) :=
  ⟨C4_theorem.1 Django.stateAB 1 2 Django.accountA Django.accountB 100 "t" 7
     (by decide) (by decide) (by decide) (by decide),
   C4_theorem.2 Flask.stAB 10 1 "ACC002" 100 Flask.accA Flask.accB "t" rfl⟩

/-- C8.  Two logically distinct (sequential) Django transfers of the same
amount between the same distinct sender and receiver both succeed, append
two distinct Transaction pairs (the pairs differ in their `balance_after`
snapshots) and two Transfer rows, and move `2×amount` in total — repeated
calls are not deduplicated. -/
theorem C8_theorem (s : Django.State) (A B : Nat) (a b : Django.Account)
    (amount : ℤ) (d1 d2 : String) (n1 n2 : Nat)
    (hA : Django.findAccount s A = some a) (hB : Django.findAccount s B = some b)
    (hAB : A ≠ B) (hamt : 0 < amount) :
    (Django.transfer s A B amount d1 n1).2 = none ∧
    (Django.transfer (Django.transfer s A B amount d1 n1).1 A B amount d2 n2).2
      = none ∧
    Django.findAccount
        (Django.transfer (Django.transfer s A B amount d1 n1).1 A B amount d2 n2).1 A
      = some { a with balance := a.balance - amount - amount } ∧
    Django.findAccount
        (Django.transfer (Django.transfer s A B amount d1 n1).1 A B amount d2 n2).1 B
      = some { b with balance := b.balance + amount + amount } ∧
    ∃ t1 t2 t3 t4 : Django.Transaction,
      (Django.transfer (Django.transfer s A B amount d1 n1).1 A B amount d2 n2).1.transactions
        = s.transactions ++ [t1, t2, t3, t4] ∧
      t1.amount = -amount ∧ t2.amount = amount ∧
      t3.amount = -amount ∧ t4.amount = amount ∧
      t1 ≠ t3 ∧ t2 ≠ t4 ∧
      (Django.transfer (Django.transfer s A B amount d1 n1).1 A B amount d2 n2).1.transfers
        = s.transfers ++
          [{ sender := A, receiver := B, amount := amount, description := d1,
             status := "completed", completed_at := some n1 },
           { sender := A, receiver := B, amount := amount, description := d2,
             status := "completed", completed_at := some n2 }] := by
  obtain ⟨e1, fA1, fB1, _, tr1, tx1⟩ :=
    Django.transfer_success s A B a b amount d1 n1 hA hB hAB hamt
  obtain ⟨e2, fA2, fB2, _, tr2, tx2⟩ :=
    Django.transfer_success (Django.transfer s A B amount d1 n1).1 A B
      { a with balance := a.balance - amount }
      { b with balance := b.balance + amount } amount d2 n2 fA1 fB1 hAB hamt
  refine ⟨e1, e2, fA2, fB2, ?_⟩
  refine ⟨{ account := A, transaction_type := "transfer", amount := -amount,
            balance_after := a.balance - amount, status := "completed",
            description := "Transfer to " ++ b.name, related_account := some B },
          { account := B, transaction_type := "transfer", amount := amount,
            balance_after := b.balance + amount, status := "completed",
            description := "Transfer from " ++ a.name, related_account := some A },
          { account := A, transaction_type := "transfer", amount := -amount,
            balance_after := a.balance - amount - amount, status := "completed",
            description := "Transfer to " ++ b.name, related_account := some B },
          { account := B, transaction_type := "transfer", amount := amount,
            balance_after := b.balance + amount + amount, status := "completed",
            description := "Transfer from " ++ a.name, related_account := some A },
          by rw [tx2, tx1]; simp, rfl, rfl, rfl, rfl, ?_, ?_,
          by rw [tr2, tr1]; simp⟩
  · intro hq
    have hba := congrArg Django.Transaction.balance_after hq
    simp at hba
    omega
  · intro hq
    have hba := congrArg Django.Transaction.balance_after hq
    simp at hba
    omega

/-- C8, witness: the double-transfer theorem applied to accounts A
(1000.00) and B (500.00) with amount 100.00. -/
theorem C8_witness :
    (Django.transfer Django.stateAB 1 2 100 "first" 0).2 = none ∧
    (Django.transfer (Django.transfer Django.stateAB 1 2 100 "first" 0).1 1 2 100
        "second" 1).2 = none ∧
    Django.findAccount
        (Django.transfer (Django.transfer Django.stateAB 1 2 100 "first" 0).1 1 2 100
          "second" 1).1 1
      = some { Django.accountA with balance := Django.accountA.balance - 100 - 100 } ∧
    Django.findAccount
        (Django.transfer (Django.transfer Django.stateAB 1 2 100 "first" 0).1 1 2 100
          "second" 1).1 2
      = some { Django.accountB with balance := Django.accountB.balance + 100 + 100 } ∧
    ∃ t1 t2 t3 t4 : Django.Transaction,
      (Django.transfer (Django.transfer Django.stateAB 1 2 100 "first" 0).1 1 2 100
          "second" 1).1.transactions
        = Django.stateAB.transactions ++ [t1, t2, t3, t4] ∧
      t1.amount = -100 ∧ t2.amount = 100 ∧
      t3.amount = -100 ∧ t4.amount = 100 ∧
      t1 ≠ t3 ∧ t2 ≠ t4 ∧
      (Django.transfer (Django.transfer Django.stateAB 1 2 100 "first" 0).1 1 2 100
          "second" 1).1.transfers
        = Django.stateAB.transfers ++
          [{ sender := 1, receiver := 2, amount := 100, description := "first",
             status := "completed", completed_at := some 0 },
           { sender := 1, receiver := 2, amount := 100, description := "second",
             status := "completed", completed_at := some 1 }] :=
  C8_theorem Django.stateAB 1 2 Django.accountA Django.accountB 100 "first" "second"
    0 1 (by decide) (by decide) (by decide) (by decide)

/-- C10.  Every Transfer row present after a Django transfer operation that
was not already present before it has status `completed` and a non-null
`completed_at`: the row is created inside the atomic block with
status `'completed'` and stamped before the block commits, and every
failure path leaves the Transfer table unchanged — no `pending` or `failed`
Transfer is ever observable. -/
theorem C10_theorem (s : Django.State) (A B : Nat) (amount : ℤ) (d : String)
    (now : Nat) :
    ∀ t ∈ (Django.transfer s A B amount d now).1.transfers,
      t ∈ s.transfers ∨ (t.status = "completed" ∧ t.completed_at ≠ none) := by
  intro t ht
  cases h1 : Django.findAccount s A with
  | none =>
    rw [show (Django.transfer s A B amount d now).1 = s by
      simp [Django.transfer, h1]] at ht
    exact Or.inl ht
  | some a =>
    cases h2 : Django.TransferCreateSerializer_validate s none B amount with
    | some e =>
      rw [show (Django.transfer s A B amount d now).1 = s by
        simp [Django.transfer, h1, h2]] at ht
      exact Or.inl ht
    | none =>
      cases h3 : Django.findAccount s B with
      | none =>
        rw [show (Django.transfer s A B amount d now).1 = s by
          simp [Django.transfer, h1, h2, h3]] at ht
        exact Or.inl ht
      | some b =>
        have htr : (Django.transfer s A B amount d now).1.transfers
            = s.transfers ++
              [{ sender := A, receiver := B, amount := amount, description := d,
                 status := "completed", completed_at := some now }] := by
          simp [Django.transfer, h1, h2, h3, Django.saveAccount]
        rw [htr] at ht
        rcases List.mem_append.mp ht with hl | hr
        · exact Or.inl hl
        · have ht' : t = { sender := A, receiver := B, amount := amount,
                           description := d, status := "completed",
                           completed_at := some now } := by
            simpa using hr
          rw [ht']
          exact Or.inr ⟨rfl, by simp⟩

/-- C10, witness: the theorem applied to the one Transfer row produced by a
concrete successful transfer. -/
theorem C10_witness :
    ({ sender := 1, receiver := 2, amount := 100, description := "t",
       status := "completed", completed_at := some 7 } : Django.Transfer)
        ∈ Django.stateAB.transfers ∨
    (({ sender := 1, receiver := 2, amount := 100, description := "t",
        status := "completed", completed_at := some 7 } : Django.Transfer).status
          = "completed" ∧
     ({ sender := 1, receiver := 2, amount := 100, description := "t",
        status := "completed", completed_at := some 7 } : Django.Transfer).completed_at
          ≠ none) :=
  C10_theorem Django.stateAB 1 2 100 "t" 7 _ (by decide)
